import Mathlib

/-!
Verification of the scan-orchestration core of the Hack-Your-Own-Web backend.

The definitions below are a shallow embedding of the Python source:
  backend/app/models/scan.py      (data model)
  backend/app/crud/scan.py        (create / get / update / delete / cancel)
  backend/app/tasks/scan_tasks.py (worker execution, alert ingestion, cancel task)
  backend/app/services/zap_scanner.py (basic / full scan polling loops)

Modelling conventions:
  * SQLAlchemy rows become Lean structures; the database is a pair of lists
    (scans, scan_alerts).  Autoincrement ids are max+1.
  * `datetime.utcnow()` is an abstract logical clock `now : Nat` passed to
    each operation.
  * The Celery broker is a queue of messages in `World`; `apply_async`
    appends, `revoke` records the task id in `revoked`.
  * Python float arithmetic on progress percentages is emulated bit-exactly:
    a CPython float is an IEEE-754 binary64 value, modelled as a sign, a
    53-bit significand and an unbounded binary exponent (`PyFloat`), with
    every operation rounding its exact result to nearest, ties to even —
    exactly IEEE semantics for all values in range (overflow and subnormals
    would need magnitudes beyond 2^1024 resp. below 2^-1022, unreachable
    here).  The literals 0.4, 0.6, 0.2, 0.15, 0.55 are the binary64
    neighbours of those decimals, and `int(...)` truncates toward zero.
  * The ZAP engine is an oracle: a stream of poll samples per phase plus the
    final alert list.  `time.sleep(2)` / `time.sleep(3)` ticks make elapsed
    time 2*tick (basic) resp. 3*tick (full) seconds.
  * Log statements have no modelled effect.
-/

namespace HackYourOwnWeb

/-- ScanStatus enum from backend/app/models/scan.py. -/
inductive ScanStatus
  | pending
  | in_progress
  | completed
  | failed
  | cancelled
deriving DecidableEq

/-- ScanType enum from backend/app/models/scan.py. -/
inductive ScanType
  | basic
  | full
deriving DecidableEq

/-- RiskLevel enum from backend/app/models/scan.py. -/
inductive RiskLevel
  | high
  | medium
  | low
  | informational
deriving DecidableEq

/-- The string value of a ScanStatus (the `str, Enum` values in the model). -/
def scanStatusValue : ScanStatus → String
  | ScanStatus.pending => "pending"
  | ScanStatus.in_progress => "in_progress"
  | ScanStatus.completed => "completed"
  | ScanStatus.failed => "failed"
  | ScanStatus.cancelled => "cancelled"

/-- The string value of a RiskLevel (the `str, Enum` values in the model). -/
def riskLevelValue : RiskLevel → String
  | RiskLevel.high => "high"
  | RiskLevel.medium => "medium"
  | RiskLevel.low => "low"
  | RiskLevel.informational => "informational"

/-- One row of the `scans` table (class Scan in backend/app/models/scan.py). -/
structure Scan where
  id : Nat
  user_id : Nat
  target_url : String
  scan_type : ScanType
  status : ScanStatus := ScanStatus.pending
  celery_task_id : Option Nat := none
  scan_config : Option (List (String × String)) := none
  progress_percentage : Nat := 0
  current_step : Option String := none
  total_alerts : Nat := 0
  high_risk_count : Nat := 0
  medium_risk_count : Nat := 0
  low_risk_count : Nat := 0
  info_count : Nat := 0
  error_message : Option String := none
  created_at : Nat := 0
  started_at : Option Nat := none
  completed_at : Option Nat := none
  updated_at : Nat := 0
deriving DecidableEq

/-- One row of the `scan_alerts` table (class ScanAlert in backend/app/models/scan.py). -/
structure ScanAlert where
  scan_id : Nat
  alert_name : String
  risk_level : RiskLevel
  confidence : String
  description : Option String := none
  solution : Option String := none
  reference : Option String := none
  cwe_id : Option String := none
  wasc_id : Option String := none
  url : String
  method : Option String := none
  param : Option String := none
  attack : Option String := none
  evidence : Option String := none
  other_info : Option String := none
  alert_tags : Option (List (String × String)) := none
  created_at : Nat := 0
deriving DecidableEq

/-- A raw ZAP alert dictionary as consumed by `_process_alerts`
(keys accessed with `alert.get(...)`; a missing key is `none`). -/
structure RawAlert where
  risk : Option String := none
  alert : Option String := none
  confidence : Option String := none
  description : Option String := none
  solution : Option String := none
  reference : Option String := none
  cweid : Option String := none
  wascid : Option String := none
  url : Option String := none
  method : Option String := none
  param : Option String := none
  attack : Option String := none
  evidence : Option String := none
  other : Option String := none
  tags : Option (List (String × String)) := none
deriving DecidableEq

/-- The persistent store: the `scans` and `scan_alerts` tables. -/
structure Db where
  scans : List Scan := []
  scan_alerts : List ScanAlert := []
deriving DecidableEq

/-- A message on the Celery broker. -/
inductive CeleryMsg
  | runScanMsg (scan_id : Nat)
  | cancelScanMsg (scan_id : Nat)
deriving DecidableEq

/-- Database plus the Celery broker state: queued tasks (task id, payload),
the next fresh task id, and the set of revoked task ids. -/
structure World where
  db : Db := {}
  queue : List (Nat × CeleryMsg) := []
  next_task_id : Nat := 0
  revoked : List Nat := []
deriving DecidableEq

/-- The observable part of a FastAPI `JSONResponse` built by the crud layer. -/
structure ApiResponse where
  status_code : Nat
  success : Bool
  message : String
  resp_scan_id : Option Nat := none
  resp_task_id : Option Nat := none
deriving DecidableEq

/-- Request body for scan creation (class ScanCreate in backend/app/schemas/scan.py);
`target_url` has already passed pydantic validation, `scan_type` is the enum. -/
structure ScanCreate where
  target_url : String
  scan_type : ScanType := ScanType.basic
  scan_config : Option (List (String × String)) := none
deriving DecidableEq

/-- Request body for scan update (class ScanUpdate in backend/app/schemas/scan.py). -/
structure ScanUpdate where
  status : Option ScanStatus := none
  progress_percentage : Option Nat := none
  current_step : Option String := none
  error_message : Option String := none
deriving DecidableEq

/-- The quota query of `create_scan_crud`: count of the owner's scans whose
status is in {PENDING, IN_PROGRESS}. -/
def activeScanCount (user_id : Nat) (db : Db) : Nat :=
  (db.scans.filter (fun s =>
    decide (s.user_id = user_id) &&
    (decide (s.status = ScanStatus.pending) || decide (s.status = ScanStatus.in_progress)))).length

/-- Autoincrement primary key for a new `scans` row. -/
def nextScanId (db : Db) : Nat :=
  db.scans.foldr (fun s m => max s.id m) 0 + 1

/-- `create_scan_crud` (backend/app/crud/scan.py, lines 13-93): validate the
scan type, enforce the 5-active-scans quota, insert a PENDING row, queue the
`run_scan` Celery task, and record the task id on the row. -/
def create_scan_crud (data : ScanCreate) (user_id : Nat) (w : World) (now : Nat) :
    ApiResponse × World :=
  if data.scan_type ∉ [ScanType.basic, ScanType.full] then
    ({ status_code := 400, success := false,
       message := "Invalid scan type. Must be basic or full" }, w)
  else
    let active_scans_count := activeScanCount user_id w.db
    if 5 ≤ active_scans_count then
      ({ status_code := 429, success := false,
         message := "Maximum concurrent scans limit reached (5). Please wait for existing scans to complete." }, w)
    else
      let sid := nextScanId w.db
      let tid := w.next_task_id
      let scan : Scan :=
        { id := sid, user_id := user_id, target_url := data.target_url,
          scan_type := data.scan_type, status := ScanStatus.pending,
          scan_config := data.scan_config, created_at := now, updated_at := now }
      let scans1 := w.db.scans ++ [scan]
      let scans2 := scans1.map (fun s =>
        if s.id = sid then { s with celery_task_id := some tid } else s)
      ({ status_code := 201, success := true,
         message := "Scan created and queued successfully",
         resp_scan_id := some sid, resp_task_id := some tid },
       { w with db := { w.db with scans := scans2 },
                queue := w.queue ++ [(tid, CeleryMsg.runScanMsg sid)],
                next_task_id := tid + 1 })

/-- `get_scan_by_id_crud` (backend/app/crud/scan.py, lines 96-129): select the
scan whose id and owner both match; any other id/owner combination is `none`. -/
def get_scan_by_id_crud (scan_id user_id : Nat) (db : Db) : Option Scan :=
  db.scans.find? (fun s => decide (s.id = scan_id) && decide (s.user_id = user_id))

/-- Apply the optional fields of a ScanUpdate to a row, as the field-by-field
`if data.x is not None` block of `update_scan_crud` does, then stamp `updated_at`. -/
def applyScanUpdate (data : ScanUpdate) (now : Nat) (s : Scan) : Scan :=
  let s1 := match data.status with
    | some v => { s with status := v }
    | none => s
  let s2 := match data.progress_percentage with
    | some v => { s1 with progress_percentage := v }
    | none => s1
  let s3 := match data.current_step with
    | some v => { s2 with current_step := some v }
    | none => s2
  let s4 := match data.error_message with
    | some v => { s3 with error_message := some v }
    | none => s3
  { s4 with updated_at := now }

/-- `update_scan_crud` (backend/app/crud/scan.py, lines 174-220): owner-scoped
lookup, then unconditionally apply every supplied field (including `status`
and `progress_percentage`, with no terminal-state or monotonicity guard). -/
def update_scan_crud (scan_id user_id : Nat) (data : ScanUpdate) (db : Db) (now : Nat) :
    ApiResponse × Db :=
  match get_scan_by_id_crud scan_id user_id db with
  | none => ({ status_code := 404, success := false, message := "Scan not found" }, db)
  | some _ =>
    ({ status_code := 200, success := true, message := "Scan updated successfully" },
     { db with scans := db.scans.map (fun s =>
         if decide (s.id = scan_id) && decide (s.user_id = user_id) then
           applyScanUpdate data now s
         else s) })

/-- `delete_scan_crud` (backend/app/crud/scan.py, lines 223-269): owner-scoped
lookup; refuse while IN_PROGRESS; otherwise delete the row and (by the
cascade on the relationship) its alerts. -/
def delete_scan_crud (scan_id user_id : Nat) (db : Db) : ApiResponse × Db :=
  match get_scan_by_id_crud scan_id user_id db with
  | none => ({ status_code := 404, success := false, message := "Scan not found" }, db)
  | some scan =>
    if scan.status = ScanStatus.in_progress then
      ({ status_code := 400, success := false,
         message := "Cannot delete scan in progress. Cancel it first" }, db)
    else
      ({ status_code := 200, success := true, message := "Scan deleted successfully" },
       { scans := db.scans.filter (fun s => decide (¬ s.id = scan.id)),
         scan_alerts := db.scan_alerts.filter (fun a => decide (¬ a.scan_id = scan.id)) })

/-- `cancel_scan_crud` (backend/app/crud/scan.py, lines 272-318): owner-scoped
lookup; only PENDING or IN_PROGRESS scans may be cancelled; queue the
`cancel_scan` Celery task (the state change happens in the task). -/
def cancel_scan_crud (scan_id user_id : Nat) (w : World) : ApiResponse × World :=
  match get_scan_by_id_crud scan_id user_id w.db with
  | none => ({ status_code := 404, success := false, message := "Scan not found" }, w)
  | some scan =>
    if scan.status ∉ [ScanStatus.pending, ScanStatus.in_progress] then
      ({ status_code := 400, success := false,
         message := "Scan is " ++ scanStatusValue scan.status ++ " and cannot be cancelled" }, w)
    else
      ({ status_code := 200, success := true, message := "Scan cancellation requested" },
       { w with queue := w.queue ++ [(w.next_task_id, CeleryMsg.cancelScanMsg scan_id)],
                next_task_id := w.next_task_id + 1 })

/-- Worker-side lookup `select(Scan).filter_by(id=scan_id)` (no owner scope). -/
def findScan (scan_id : Nat) (db : Db) : Option Scan :=
  db.scans.find? (fun s => decide (s.id = scan_id))

/-- Replace the row with the given id by `f` of it (a session mutation + commit). -/
def setScan (scan_id : Nat) (f : Scan → Scan) (db : Db) : Db :=
  { db with scans := db.scans.map (fun s => if s.id = scan_id then f s else s) }

/-- Status of the scan with the given id, if present. -/
def scanStatusOf (scan_id : Nat) (db : Db) : Option ScanStatus :=
  (findScan scan_id db).map (fun s => s.status)

/-- Error message of the scan with the given id, if present. -/
def scanErrorOf (scan_id : Nat) (db : Db) : Option (Option String) :=
  (findScan scan_id db).map (fun s => s.error_message)

/-- Progress percentage of the scan with the given id, if present. -/
def scanProgressOf (scan_id : Nat) (db : Db) : Option Nat :=
  (findScan scan_id db).map (fun s => s.progress_percentage)

/-- Outcome of `_cancel_scan_async` (backend/app/tasks/scan_tasks.py,
lines 244-279): ValueError on a missing scan, the not_cancellable dict,
or the cancelled dict. -/
inductive CancelOutcome
  | cancelNotFound
  | notCancellable
  | cancelledOk
deriving DecidableEq

/-- The row mutation `_cancel_scan_async` commits on an accepted cancel
(backend/app/tasks/scan_tasks.py, lines 266-269): status CANCELLED,
completed_at, updated_at, error_message = "Scan cancelled by user". -/
def cancelStamp (now : Nat) (s : Scan) : Scan :=
  { s with status := ScanStatus.cancelled, completed_at := some now,
           updated_at := now, error_message := some "Scan cancelled by user" }

/-- `_cancel_scan_async` (backend/app/tasks/scan_tasks.py, lines 244-279):
fetch by id; if the status is not PENDING/IN_PROGRESS return not_cancellable
with no change; otherwise revoke the Celery task (if recorded) and commit
the `cancelStamp` mutation. -/
def cancel_scan_async (scan_id : Nat) (w : World) (now : Nat) : CancelOutcome × World :=
  match findScan scan_id w.db with
  | none => (CancelOutcome.cancelNotFound, w)
  | some scan =>
    if scan.status ∉ [ScanStatus.pending, ScanStatus.in_progress] then
      (CancelOutcome.notCancellable, w)
    else
      let w1 := match scan.celery_task_id with
        | some tid => { w with revoked := w.revoked ++ [tid] }
        | none => w
      (CancelOutcome.cancelledOk,
       { w1 with db := setScan scan_id (cancelStamp now) w1.db })

/-- `ScanTask.on_failure` (backend/app/tasks/scan_tasks.py, lines 15-22):
logs the failure and deliberately performs no database update; the source
comment states the scan "will remain in IN_PROGRESS state and can be cleaned
up separately". -/
def scan_task_on_failure (w : World) : World :=
  w

/-- The `risk_mapping` dict of `_process_alerts`
(backend/app/tasks/scan_tasks.py, lines 167-176). -/
def risk_mapping : List (String × RiskLevel) :=
  [("3", RiskLevel.high), ("2", RiskLevel.medium), ("1", RiskLevel.low),
   ("0", RiskLevel.informational),
   ("High", RiskLevel.high), ("Medium", RiskLevel.medium), ("Low", RiskLevel.low),
   ("Informational", RiskLevel.informational)]

/-- `risk_str = str(alert.get("risk", "0"))`: the raw risk value with default "0". -/
def rawRiskString (a : RawAlert) : String :=
  a.risk.getD "0"

/-- `risk_mapping.get(risk_str, RiskLevel.INFORMATIONAL)`: dict lookup with
default INFORMATIONAL. -/
def mapRisk (risk_str : String) : RiskLevel :=
  ((risk_mapping.find? (fun p => p.1 == risk_str)).map Prod.snd).getD RiskLevel.informational

/-- `str(alert.get(k)) if alert.get(k) else None`: an absent or falsy (empty)
string becomes None. -/
def strOrNone (v : Option String) : Option String :=
  v.bind (fun s => if s = "" then none else some s)

/-- One `ScanAlert(...)` record built inside the loop of `_process_alerts`
(backend/app/tasks/scan_tasks.py, lines 188-205). -/
def toScanAlert (sid : Nat) (a : RawAlert) : ScanAlert :=
  { scan_id := sid,
    alert_name := a.alert.getD "Unknown Alert",
    risk_level := mapRisk (rawRiskString a),
    confidence := a.confidence.getD "Unknown",
    description := a.description,
    solution := a.solution,
    reference := a.reference,
    cwe_id := strOrNone a.cweid,
    wasc_id := strOrNone a.wascid,
    url := a.url.getD "",
    method := a.method,
    param := a.param,
    attack := a.attack,
    evidence := a.evidence,
    other_info := a.other,
    alert_tags := a.tags }

/-- The `risk_counts` accumulator of `_process_alerts`. -/
structure RiskCounts where
  high : Nat := 0
  medium : Nat := 0
  low : Nat := 0
  informational : Nat := 0
deriving DecidableEq

/-- `risk_counts[risk_level.value] += 1`. -/
def bumpRisk (c : RiskCounts) : RiskLevel → RiskCounts
  | RiskLevel.high => { c with high := c.high + 1 }
  | RiskLevel.medium => { c with medium := c.medium + 1 }
  | RiskLevel.low => { c with low := c.low + 1 }
  | RiskLevel.informational => { c with informational := c.informational + 1 }

/-- The `for alert in alerts` loop of `_process_alerts`: build the alert
objects in order and count each alert under its mapped risk level. -/
def processAlertsLoop (sid : Nat) : List RawAlert → List ScanAlert × RiskCounts
  | [] => ([], {})
  | a :: rest =>
    let r := processAlertsLoop sid rest
    (toScanAlert sid a :: r.1, bumpRisk r.2 (mapRisk (rawRiskString a)))

/-- `_process_alerts` (backend/app/tasks/scan_tasks.py, lines 153-219): the
alert rows to bulk-insert (`session.add_all`) and the scan row with its
aggregate counters (`total_alerts` plus the four per-risk counts) set. -/
def process_alerts (scan : Scan) (alerts : List RawAlert) : List ScanAlert × Scan :=
  let r := processAlertsLoop scan.id alerts
  (r.1,
   { scan with total_alerts := alerts.length,
               high_risk_count := r.2.high,
               medium_risk_count := r.2.medium,
               low_risk_count := r.2.low,
               info_count := r.2.informational })

/-- Outcome of `_run_scan_async`: ValueError on a missing scan or invalid
scan type, the completed summary, or the re-raised scan exception. -/
inductive RunOutcome
  | scanMissing
  | invalidScanType
  | completedRun
  | failedRun (msg : String)
deriving DecidableEq

/-- The first commit of `_run_scan_async` (lines 70-74): status IN_PROGRESS,
started_at, celery_task_id. -/
def startStamp (task_id now : Nat) (s : Scan) : Scan :=
  { s with status := ScanStatus.in_progress, started_at := some now,
           celery_task_id := some task_id }

/-- The completion commit of `_run_scan_async` (lines 114-120): status
COMPLETED, completed_at, progress 100, current_step "Completed", updated_at. -/
def completedStamp (now : Nat) (s : Scan) : Scan :=
  { s with status := ScanStatus.completed, completed_at := some now,
           progress_percentage := 100, current_step := some "Completed",
           updated_at := now }

/-- The failure commit of `_run_scan_async` (lines 144-149): status FAILED,
error_message = str(e), completed_at, updated_at. -/
def failedStamp (e : String) (now : Nat) (s : Scan) : Scan :=
  { s with status := ScanStatus.failed, error_message := some e,
           completed_at := some now, updated_at := now }

/-- `_run_scan_async` (backend/app/tasks/scan_tasks.py, lines 48-150), as the
list of database states it commits, in commit order.  The engine run
(`run_basic_scan` / `run_full_scan`) is abstracted as its outcome: the alert
list it returned, or the exception it raised.  Commits:
  1. the scan marked IN_PROGRESS with `started_at` and `celery_task_id`;
  2. on success, the bulk-inserted alert rows together with the aggregate
     counters (one commit, line 106);
  3. the COMPLETED transition with progress 100 and current_step (line 120);
or, on an exception, the FAILED transition with `error_message` (line 149).
A missing scan or an invalid scan type raises before any commit. -/
def run_scan_commits (scan_id task_id : Nat) (engine : Except String (List RawAlert))
    (w : World) (now : Nat) : RunOutcome × List World :=
  match findScan scan_id w.db with
  | none => (RunOutcome.scanMissing, [])
  | some scan =>
    if scan.scan_type ∉ [ScanType.basic, ScanType.full] then
      (RunOutcome.invalidScanType, [])
    else
      let w1 := { w with db := setScan scan_id (startStamp task_id now) w.db }
      match engine with
      | Except.ok alerts =>
        let processed := process_alerts (startStamp task_id now scan) alerts
        let w2 := { w1 with db :=
          { scans := (setScan scan_id (fun _ => processed.2) w1.db).scans,
            scan_alerts := w1.db.scan_alerts ++ processed.1 } }
        let w3 := { w2 with db := setScan scan_id (completedStamp now) w2.db }
        (RunOutcome.completedRun, [w1, w2, w3])
      | Except.error e =>
        let w2 := { w1 with db := setScan scan_id (failedStamp e now) w1.db }
        (RunOutcome.failedRun e, [w1, w2])

/-- `_run_scan_async` as outcome plus final committed state. -/
def run_scan_async (scan_id task_id : Nat) (engine : Except String (List RawAlert))
    (w : World) (now : Nat) : RunOutcome × World :=
  let r := run_scan_commits scan_id task_id engine w now
  (r.1, r.2.getLastD w)

/-- The progress callback `update_progress` of `_run_scan_async`
(backend/app/tasks/scan_tasks.py, lines 84-87): it only logs
("just log for now to avoid DB connection conflicts") and performs no
database write at all. -/
def update_progress (scan_id percentage : Nat) (step : String) (w : World) : World :=
  w

/-- The ZAP engine as seen by `run_basic_scan` while reachable: per-tick
spider status and passive records-to-scan samples, and the alerts
`get_alerts` returns at collection. -/
structure BasicEngine where
  spider : Nat → Nat
  records : Nat → Nat
  alerts : List RawAlert

/-- Loop state of the `while True` poll loop of `run_basic_scan`
(backend/app/services/zap_scanner.py, lines 462-516); `reports` collects the
`progress_callback` calls. -/
structure BasicLoopState where
  tick : Nat
  spider_done : Bool
  initial_passive_records : Option Nat
  reports : List (Nat × String)
deriving DecidableEq

/-- `if initial_passive_records is None and passive_remaining > 0`: latch the
first positive records sample. -/
def basic_update_init (init : Option Nat) (remaining : Nat) : Option Nat :=
  match init with
  | none => if 0 < remaining then some remaining else none
  | some i => some i

/-- Bounded-fuel binary logarithm (floor of log2), total and kernel-reducible;
`natLog2 n` is exact for every n ≥ 1 since n halvings always reach 1. -/
def log2fuel : Nat → Nat → Nat
  | 0, _ => 0
  | Nat.succ fuel, n => if n ≤ 1 then 0 else log2fuel fuel (n / 2) + 1

/-- Floor of log2 of a positive natural. -/
def natLog2 (n : Nat) : Nat :=
  log2fuel n n

/-- Floor of log2 of the positive fraction a/b (a, b ≥ 1). -/
def blog2n (a b : Nat) : Int :=
  let k0 : Int := (natLog2 a : Int) - (natLog2 b : Int)
  if 0 ≤ k0 then (if b * 2 ^ k0.toNat ≤ a then k0 else k0 - 1)
  else (if b ≤ a * 2 ^ (-k0).toNat then k0 else k0 - 1)

/-- Round the fraction num/den to the nearest integer, ties to even. -/
def rne (num den : Nat) : Nat :=
  let q := num / den
  let r := num % den
  if 2 * r < den then q
  else if den < 2 * r then q + 1
  else if q % 2 = 0 then q else q + 1

/-- An IEEE-754 binary64 value with unbounded exponent range: the value is
(-1)^sign * m * 2^e with m = 0 (zero) or 2^52 ≤ m ≤ 2^53.  Overflow,
subnormals, infinities and NaN never arise in the magnitudes the scanner
computes, so they are not representable here. -/
structure PyFloat where
  sign : Bool := false
  m : Nat := 0
  e : Int := 0
deriving DecidableEq

/-- Round the exact value (-1)^sgn * (a/b) * 2^E to the nearest binary64,
ties to even (the IEEE-754 default rounding CPython uses). -/
def floatRound (sgn : Bool) (a b : Nat) (E : Int) : PyFloat :=
  if a = 0 then {}
  else
    let k := blog2n a b
    let d : Int := 52 - k
    let num := if 0 ≤ d then a * 2 ^ d.toNat else a
    let den := if 0 ≤ d then b else b * 2 ^ (-d).toNat
    { sign := sgn, m := rne num den, e := k + E - 52 }

/-- CPython int-to-float conversion (exact below 2^53, nearest-even above). -/
def pfOfNat (n : Nat) : PyFloat :=
  floatRound false n 1 0

/-- IEEE binary64 multiplication: round the exact product. -/
def pfMul (x y : PyFloat) : PyFloat :=
  floatRound (xor x.sign y.sign) (x.m * y.m) 1 (x.e + y.e)

/-- IEEE binary64 division: round the exact quotient (divisor nonzero). -/
def pfDiv (x y : PyFloat) : PyFloat :=
  floatRound (xor x.sign y.sign) x.m y.m (x.e - y.e)

/-- IEEE binary64 addition: round the exact sum. -/
def pfAdd (x y : PyFloat) : PyFloat :=
  let emin := min x.e y.e
  let a1 : Int := (if x.sign then -(x.m : Int) else (x.m : Int)) * 2 ^ (x.e - emin).toNat
  let a2 : Int := (if y.sign then -(y.m : Int) else (y.m : Int)) * 2 ^ (y.e - emin).toNat
  let s := a1 + a2
  if s = 0 then {} else floatRound (decide (s < 0)) s.natAbs 1 emin

/-- IEEE binary64 subtraction. -/
def pfSub (x y : PyFloat) : PyFloat :=
  pfAdd x { y with sign := !y.sign }

/-- Python `int(...)` on a float: truncation toward zero. -/
def pfTrunc (x : PyFloat) : Int :=
  let mag : Nat := if 0 ≤ x.e then x.m * 2 ^ x.e.toNat else x.m / 2 ^ (-x.e).toNat
  if x.sign then -(mag : Int) else (mag : Int)

/-- The binary64 value of the literal `0.4`. -/
def py04 : PyFloat := floatRound false 2 5 0

/-- The binary64 value of the literal `0.6`. -/
def py06 : PyFloat := floatRound false 3 5 0

/-- The binary64 value of the literal `0.2`. -/
def py02 : PyFloat := floatRound false 1 5 0

/-- The binary64 value of the literal `0.15`. -/
def py015 : PyFloat := floatRound false 3 20 0

/-- The binary64 value of the literal `0.55`. -/
def py055 : PyFloat := floatRound false 11 20 0

/-- The binary64 value of the int literal `1`. -/
def py1 : PyFloat := pfOfNat 1

/-- The binary64 value of the int literal `100`. -/
def py100 : PyFloat := pfOfNat 100

/-- `int((1 - passive_remaining / initial_passive_records) * 100)` in CPython
float semantics (zap_scanner.py lines 494 and 652): true division of the two
ints, subtraction from 1, multiplication by 100 — each correctly rounded —
then truncation toward zero. -/
def pyPassivePct (i r : Nat) : Int :=
  pfTrunc (pfMul (pfSub py1 (pfDiv (pfOfNat r) (pfOfNat i))) py100)

/-- The passive progress computation of `run_basic_scan` (lines 492-497):
`int((1 - passive_remaining / initial_passive_records) * 100)` clamped by
`min(99, max(0, ...))` when the initial count is known (`Int.toNat` is the
max with 0), else 0 while records remain and 100 once none do. -/
def basic_passive_progress (init : Option Nat) (remaining : Nat) : Nat :=
  match init with
  | some i => min 99 (pyPassivePct i remaining).toNat
  | none => if 0 < remaining then 0 else 100

/-- The combined progress report of `run_basic_scan` (line 512):
`int(spider_progress * 0.4 + passive_progress * 0.6)` in CPython float
semantics: each int converted to binary64, each product and the sum
correctly rounded, the result truncated toward zero. -/
def basic_combined_progress (spider_progress passive_progress : Nat) : Nat :=
  (pfTrunc (pfAdd (pfMul (pfOfNat spider_progress) py04)
    (pfMul (pfOfNat passive_progress) py06))).toNat

/-- Modelled from the spec: the combined basic-scan progress as the spec
states it, "combined = round(0.4×discoveryPct + 0.6×passivePct)" — for
comparison with `basic_combined_progress`, which embeds the source. -/
def spec_round_combined (d p : Nat) : Int :=
  round ((d * 2 + p * 3 : ℚ) / 5)

/-- The status message of the basic-scan progress report (line 513). -/
def basicStatusMsg (spider_progress passive_progress passive_remaining : Nat) : String :=
  "Spider: " ++ toString spider_progress ++ "%, Passive: " ++
    toString passive_progress ++ "% (" ++ toString passive_remaining ++ " records)"

/-- The spider_done flag after the checks of lines 473-483: already done, or
the status sample reached 100, or the spider timeout passed
(elapsed = 2*tick seconds, `time.sleep(2)`). -/
def basicSpiderDone (spider_timeout : Nat) (eng : BasicEngine) (st : BasicLoopState) : Bool :=
  (st.spider_done || decide (100 ≤ eng.spider st.tick)) || decide (spider_timeout < 2 * st.tick)

/-- The initial_passive_records latch after line 489-490. -/
def basicNextInit (eng : BasicEngine) (st : BasicLoopState) : Option Nat :=
  basic_update_init st.initial_passive_records (eng.records st.tick)

/-- The loop state with the flags of this iteration applied (tick and
reports unchanged). -/
def basicFlagged (spider_timeout : Nat) (eng : BasicEngine) (st : BasicLoopState) :
    BasicLoopState :=
  { st with spider_done := basicSpiderDone spider_timeout eng st,
            initial_passive_records := basicNextInit eng st }

/-- The two `break` conditions of lines 500-507: spider done with an empty
passive backlog, or spider done and the passive timeout passed.  Both
breaks leave the same state, so they are modelled as one disjunction. -/
def basicExit (spider_timeout passive_timeout : Nat) (eng : BasicEngine)
    (st : BasicLoopState) : Bool :=
  (basicSpiderDone spider_timeout eng st && decide (eng.records st.tick = 0)) ||
    (basicSpiderDone spider_timeout eng st && decide (passive_timeout < 2 * st.tick))

/-- The progress report of lines 510-514 for this iteration. -/
def basicReport (eng : BasicEngine) (st : BasicLoopState) : Nat × String :=
  (basic_combined_progress (eng.spider st.tick)
     (basic_passive_progress (basicNextInit eng st) (eng.records st.tick)),
   basicStatusMsg (eng.spider st.tick)
     (basic_passive_progress (basicNextInit eng st) (eng.records st.tick))
     (eng.records st.tick))

/-- One iteration of the `while True` loop of `run_basic_scan`
(lines 469-516): update the flags, break under `basicExit`, otherwise
report combined progress and sleep.  `Sum.inl` is `break`, `Sum.inr`
continues with the next tick. -/
def basicTick (spider_timeout passive_timeout : Nat) (eng : BasicEngine)
    (st : BasicLoopState) : Sum BasicLoopState BasicLoopState :=
  if basicExit spider_timeout passive_timeout eng st then
    Sum.inl (basicFlagged spider_timeout eng st)
  else
    Sum.inr { basicFlagged spider_timeout eng st with
      tick := st.tick + 1,
      reports := st.reports ++ [basicReport eng st] }

/-- The poll loop of `run_basic_scan`, run on fuel (each real execution only
needs (max timeout)/2 + 2 ticks; see the termination lemmas). -/
def basicLoop (spider_timeout passive_timeout : Nat) (eng : BasicEngine) :
    Nat → BasicLoopState → Option BasicLoopState
  | 0, _ => none
  | Nat.succ fuel, st =>
    match basicTick spider_timeout passive_timeout eng st with
    | Sum.inl done => some done
    | Sum.inr next => basicLoop spider_timeout passive_timeout eng fuel next

/-- Loop state at entry of `run_basic_scan`, after the two pre-loop progress
reports (lines 444 and 449). -/
def basicInitState : BasicLoopState :=
  { tick := 0, spider_done := false, initial_passive_records := none,
    reports := [(0, "Configuring passive scan policy"),
                (5, "Starting parallel spider and passive scan")] }

/-- `run_basic_scan` (backend/app/services/zap_scanner.py, lines 410-530)
with a reachable engine: run the poll loop, then report (100, "Collecting
results") and return `get_alerts` of the engine.  The result is the returned
alert list paired with every progress report issued. -/
def run_basic_scan (spider_timeout passive_timeout : Nat) (eng : BasicEngine)
    (fuel : Nat) : Option (List RawAlert × List (Nat × String)) :=
  (basicLoop spider_timeout passive_timeout eng fuel basicInitState).map
    (fun st => (eng.alerts, st.reports ++ [(100, "Collecting results")]))

/-- The ZAP engine as seen by `run_full_scan` while reachable: per-tick
spider status, AJAX-spider stopped flag, passive records and active status
samples (an unparsable/absent active status is `none`, handled as 0), and
the alerts returned at collection. -/
structure FullEngine where
  spider : Nat → Nat
  ajaxStopped : Nat → Bool
  records : Nat → Nat
  activeStatus : Nat → Option Nat
  alerts : List RawAlert

/-- Loop state of the `while True` poll loop of `run_full_scan`
(backend/app/services/zap_scanner.py, lines 612-718). -/
structure FullLoopState where
  tick : Nat
  spider_done : Bool
  ajax_spider_done : Bool
  passive_done : Bool
  initial_passive_records : Option Nat
  reports : List (Nat × String)
deriving DecidableEq

/-- `active_timeout = 1800  # 30 minutes for active scan` (line 605). -/
def full_active_timeout : Nat := 1800

/-- The passive progress computation of `run_full_scan` (lines 651-655);
like the basic one but with the no-initial-records branch written
`100 if passive_remaining == 0 else 0`. -/
def full_passive_progress (init : Option Nat) (remaining : Nat) : Nat :=
  match init with
  | some i => min 99 (pyPassivePct i remaining).toNat
  | none => if remaining = 0 then 100 else 0

/-- Combined progress with the AJAX spider enabled (lines 690-697):
`int(s*0.15 + ajax*0.15 + p*0.15 + a*0.55)` in CPython float semantics,
the three additions associating left. -/
def full_combined_with_ajax (s ajax p a : Nat) : Nat :=
  (pfTrunc (pfAdd (pfAdd (pfAdd (pfMul (pfOfNat s) py015)
    (pfMul (pfOfNat ajax) py015)) (pfMul (pfOfNat p) py015))
    (pfMul (pfOfNat a) py055))).toNat

/-- Combined progress without the AJAX spider (lines 704-710):
`int(s*0.2 + p*0.2 + a*0.6)` in CPython float semantics, the two additions
associating left. -/
def full_combined_no_ajax (s p a : Nat) : Nat :=
  (pfTrunc (pfAdd (pfAdd (pfMul (pfOfNat s) py02) (pfMul (pfOfNat p) py02))
    (pfMul (pfOfNat a) py06))).toNat

/-- The status message of the full-scan progress report
(lines 698-703 with AJAX, lines 711-715 without). -/
def fullStatusMsg (ajax_enabled : Bool) (s ajax p a : Nat) : String :=
  if ajax_enabled then
    "Spider: " ++ toString s ++ "%, AJAX: " ++ toString ajax ++ "%, Passive: " ++
      toString p ++ "%, Active: " ++ toString a ++ "%"
  else
    "Spider: " ++ toString s ++ "%, Passive: " ++ toString p ++ "%, Active: " ++
      toString a ++ "%"

/-- The spider_done flag after lines 616-626 (elapsed = 3*tick seconds,
`time.sleep(3)`). -/
def fullSpiderDone (spider_timeout : Nat) (eng : FullEngine) (st : FullLoopState) : Bool :=
  (st.spider_done || decide (100 ≤ eng.spider st.tick)) || decide (spider_timeout < 3 * st.tick)

/-- The ajax_spider_done flag after lines 629-642: only checked while the
AJAX spider is enabled and not yet done; done once its status is stopped or
its timeout passed. -/
def fullAjaxDone (ajax_timeout : Nat) (ajax_enabled : Bool) (eng : FullEngine)
    (st : FullLoopState) : Bool :=
  if ajax_enabled && !st.ajax_spider_done then
    eng.ajaxStopped st.tick || decide (ajax_timeout < 3 * st.tick)
  else st.ajax_spider_done

/-- The initial_passive_records latch after lines 647-648. -/
def fullNextInit (eng : FullEngine) (st : FullLoopState) : Option Nat :=
  basic_update_init st.initial_passive_records (eng.records st.tick)

/-- The passive_done latch of lines 657-660: the backlog is empty and both
spiders are done. -/
def fullPassiveDone (spider_timeout ajax_timeout : Nat) (ajax_enabled : Bool)
    (eng : FullEngine) (st : FullLoopState) : Bool :=
  st.passive_done ||
    (decide (eng.records st.tick = 0) && fullSpiderDone spider_timeout eng st &&
      fullAjaxDone ajax_timeout ajax_enabled eng st)

/-- The parsed active-scan status of lines 662-672 (an absent or unparsable
status counts as 0). -/
def fullActiveProgress (eng : FullEngine) (st : FullLoopState) : Nat :=
  (eng.activeStatus st.tick).getD 0

/-- The loop state with this iteration's flags applied (tick and reports
unchanged). -/
def fullFlagged (spider_timeout ajax_timeout : Nat) (ajax_enabled : Bool)
    (eng : FullEngine) (st : FullLoopState) : FullLoopState :=
  { st with
    spider_done := fullSpiderDone spider_timeout eng st
    ajax_spider_done := fullAjaxDone ajax_timeout ajax_enabled eng st
    passive_done := fullPassiveDone spider_timeout ajax_timeout ajax_enabled eng st
    initial_passive_records := fullNextInit eng st }

/-- The two `break` conditions of lines 674-685: everything done with the
active scan at 100, or the overall active timeout passed.  Both breaks
leave the same state, so they are modelled as one disjunction. -/
def fullExit (spider_timeout ajax_timeout : Nat) (ajax_enabled : Bool)
    (eng : FullEngine) (st : FullLoopState) : Bool :=
  ((fullSpiderDone spider_timeout eng st && fullAjaxDone ajax_timeout ajax_enabled eng st) &&
      fullPassiveDone spider_timeout ajax_timeout ajax_enabled eng st &&
      decide (100 ≤ fullActiveProgress eng st)) ||
    decide (full_active_timeout < 3 * st.tick)

/-- The weighted progress report of lines 687-716 for this iteration:
15/15/15/55 with the AJAX spider (its own progress approximated as 100 when
done, else 50), 20/20/60 without. -/
def fullReport (spider_timeout ajax_timeout : Nat) (ajax_enabled : Bool)
    (eng : FullEngine) (st : FullLoopState) : Nat × String :=
  let pp := full_passive_progress (fullNextInit eng st) (eng.records st.tick)
  let ajax_progress := if fullAjaxDone ajax_timeout ajax_enabled eng st then 100 else 50
  let combined :=
    if ajax_enabled then
      full_combined_with_ajax (eng.spider st.tick) ajax_progress pp
        (fullActiveProgress eng st)
    else
      full_combined_no_ajax (eng.spider st.tick) pp (fullActiveProgress eng st)
  (combined,
   fullStatusMsg ajax_enabled (eng.spider st.tick) ajax_progress pp
     (fullActiveProgress eng st))

/-- One iteration of the `while True` loop of `run_full_scan`
(lines 612-718): update the flags, break under `fullExit`, otherwise report
weighted combined progress and sleep. -/
def fullTick (spider_timeout ajax_timeout : Nat) (ajax_enabled : Bool)
    (eng : FullEngine) (st : FullLoopState) : Sum FullLoopState FullLoopState :=
  if fullExit spider_timeout ajax_timeout ajax_enabled eng st then
    Sum.inl (fullFlagged spider_timeout ajax_timeout ajax_enabled eng st)
  else
    Sum.inr { fullFlagged spider_timeout ajax_timeout ajax_enabled eng st with
      tick := st.tick + 1,
      reports := st.reports ++ [fullReport spider_timeout ajax_timeout ajax_enabled eng st] }

/-- The poll loop of `run_full_scan`, run on fuel. -/
def fullLoop (spider_timeout ajax_timeout : Nat) (ajax_enabled : Bool)
    (eng : FullEngine) : Nat → FullLoopState → Option FullLoopState
  | 0, _ => none
  | Nat.succ fuel, st =>
    match fullTick spider_timeout ajax_timeout ajax_enabled eng st with
    | Sum.inl done => some done
    | Sum.inr next => fullLoop spider_timeout ajax_timeout ajax_enabled eng fuel next

/-- Loop state at entry of `run_full_scan`, after the two pre-loop progress
reports (lines 568 and 573); with the AJAX spider disabled it is considered
done from the start (line 608). -/
def fullInitState (ajax_enabled : Bool) : FullLoopState :=
  { tick := 0, spider_done := false, ajax_spider_done := !ajax_enabled,
    passive_done := false, initial_passive_records := none,
    reports := [(0, "Configuring security test policy"),
                (5, "Starting parallel security testing")] }

/-- `run_full_scan` (backend/app/services/zap_scanner.py, lines 532-733)
with a reachable engine: run the poll loop, then report (100, "Collecting
security findings") and return `get_alerts` of the engine. -/
def run_full_scan (spider_timeout ajax_timeout : Nat) (ajax_enabled : Bool)
    (eng : FullEngine) (fuel : Nat) : Option (List RawAlert × List (Nat × String)) :=
  (fullLoop spider_timeout ajax_timeout ajax_enabled eng fuel (fullInitState ajax_enabled)).map
    (fun st => (eng.alerts, st.reports ++ [(100, "Collecting security findings")]))

/-- n submissions of the same creation request in a row (the status codes of
the responses), as in the rapid-submission scenario. -/
def submitCodes (data : ScanCreate) (user_id now : Nat) : Nat → World → List Nat
  | 0, _ => []
  | Nat.succ n, w =>
    let r := create_scan_crud data user_id w now
    r.1.status_code :: submitCodes data user_id now n r.2

/-! ## Helper lemmas -/

theorem scanType_mem_valid (t : ScanType) : t ∈ [ScanType.basic, ScanType.full] := by
  cases t <;> simp

theorem id_le_foldrMax (s : Scan) (l : List Scan) (h : s ∈ l) :
    s.id ≤ l.foldr (fun s m => max s.id m) 0 := by
  induction l with
  | nil => cases h
  | cons a t ih =>
    rcases List.mem_cons.mp h with rfl | h2
    · exact le_max_left _ _
    · exact le_trans (ih h2) (le_max_right _ _)

theorem id_lt_nextScanId (s : Scan) (db : Db) (h : s ∈ db.scans) :
    s.id < nextScanId db :=
  Nat.lt_succ_of_le (id_le_foldrMax s db.scans h)

theorem map_fixed_eq_self {f : Scan → Scan} {l : List Scan}
    (h : ∀ s ∈ l, f s = s) : l.map f = l := by
  induction l with
  | nil => rfl
  | cons a t ih =>
    simp only [List.map_cons]
    rw [h a (by simp), ih (fun s hs => h s (by simp [hs]))]

theorem create_scan_reject (data : ScanCreate) (user_id now : Nat) (w : World)
    (h : 5 ≤ activeScanCount user_id w.db) :
    create_scan_crud data user_id w now =
      ({ status_code := 429, success := false,
         message := "Maximum concurrent scans limit reached (5). Please wait for existing scans to complete." }, w) := by
  unfold create_scan_crud
  rw [if_neg (not_not_intro (scanType_mem_valid data.scan_type))]
  rw [if_pos h]

theorem create_scan_accept (data : ScanCreate) (user_id now : Nat) (w : World)
    (h : activeScanCount user_id w.db < 5) :
    create_scan_crud data user_id w now =
      ({ status_code := 201, success := true,
         message := "Scan created and queued successfully",
         resp_scan_id := some (nextScanId w.db), resp_task_id := some w.next_task_id },
       { w with
          db := { w.db with scans := w.db.scans ++
            [{ id := nextScanId w.db, user_id := user_id, target_url := data.target_url,
               scan_type := data.scan_type, status := ScanStatus.pending,
               celery_task_id := some w.next_task_id,
               scan_config := data.scan_config, created_at := now, updated_at := now }] },
          queue := w.queue ++ [(w.next_task_id, CeleryMsg.runScanMsg (nextScanId w.db))],
          next_task_id := w.next_task_id + 1 }) := by
  have hfix : ∀ s ∈ w.db.scans,
      (fun s => if s.id = nextScanId w.db then
        { s with celery_task_id := some w.next_task_id } else s) s = s := by
    intro s hs
    have := id_lt_nextScanId s w.db hs
    simp only []
    rw [if_neg (by omega)]
  unfold create_scan_crud
  rw [if_neg (not_not_intro (scanType_mem_valid data.scan_type))]
  rw [if_neg (by omega)]
  simp only [List.map_append, map_fixed_eq_self hfix, List.map_cons, List.map_nil,
    eq_self_iff_true, if_true]

theorem activeScanCount_append_pending (user_id : Nat) (db : Db) (sc : Scan)
    (hu : sc.user_id = user_id) (hs : sc.status = ScanStatus.pending) :
    activeScanCount user_id { db with scans := db.scans ++ [sc] } =
      activeScanCount user_id db + 1 := by
  unfold activeScanCount
  simp [List.filter_append, hu, hs]

theorem submitCodes_succ (data : ScanCreate) (user_id now n : Nat) (w : World) :
    submitCodes data user_id now (n + 1) w =
      (create_scan_crud data user_id w now).1.status_code ::
        submitCodes data user_id now n (create_scan_crud data user_id w now).2 := rfl

/-! ## Claims -/

/-- C1: a scan-creation request is rejected with the quota-exceeded signal
(HTTP 429), with no state change at all, exactly when the owner has at least
5 scans with status in {PENDING, IN_PROGRESS}; below 5 a new PENDING row for
that owner is appended; in particular 6 rapid submissions from a clean slate
yield five 201 responses and then a 429. -/
theorem claim_C1 :
    ∀ (data : ScanCreate) (user_id now : Nat) (w : World),
      ((create_scan_crud data user_id w now).1.status_code = 429 ↔
        5 ≤ activeScanCount user_id w.db) ∧
      (5 ≤ activeScanCount user_id w.db →
        (create_scan_crud data user_id w now).2 = w ∧
        (create_scan_crud data user_id w now).1.success = false) ∧
      (activeScanCount user_id w.db < 5 →
        (create_scan_crud data user_id w now).1.status_code = 201 ∧
        ∃ sc : Scan,
          (create_scan_crud data user_id w now).2.db.scans = w.db.scans ++ [sc] ∧
          sc.status = ScanStatus.pending ∧ sc.user_id = user_id) ∧
      (activeScanCount user_id w.db = 0 →
        submitCodes data user_id now 6 w = [201, 201, 201, 201, 201, 429]) := by
  intro data user_id now w
  refine ⟨?_, ?_, ?_, ?_⟩
  · constructor
    · intro h429
      by_contra hlt
      rw [create_scan_accept data user_id now w (by omega)] at h429
      simp at h429
    · intro h5
      rw [create_scan_reject data user_id now w h5]
  · intro h5
    rw [create_scan_reject data user_id now w h5]
    exact ⟨rfl, rfl⟩
  · intro hlt
    rw [create_scan_accept data user_id now w hlt]
    exact ⟨rfl, _, rfl, rfl, rfl⟩
  · intro h0
    have step : ∀ w' : World, activeScanCount user_id w'.db < 5 →
        (create_scan_crud data user_id w' now).1.status_code = 201 ∧
        activeScanCount user_id (create_scan_crud data user_id w' now).2.db
          = activeScanCount user_id w'.db + 1 := by
      intro w' hlt
      rw [create_scan_accept data user_id now w' hlt]
      exact ⟨rfl, activeScanCount_append_pending user_id w'.db _ rfl rfl⟩
    set W1 := (create_scan_crud data user_id w now).2 with hW1
    set W2 := (create_scan_crud data user_id W1 now).2 with hW2
    set W3 := (create_scan_crud data user_id W2 now).2 with hW3
    set W4 := (create_scan_crud data user_id W3 now).2 with hW4
    set W5 := (create_scan_crud data user_id W4 now).2 with hW5
    obtain ⟨a1, c1⟩ := step w (by omega)
    rw [← hW1] at c1
    obtain ⟨a2, c2⟩ := step W1 (by omega)
    rw [← hW2] at c2
    obtain ⟨a3, c3⟩ := step W2 (by omega)
    rw [← hW3] at c3
    obtain ⟨a4, c4⟩ := step W3 (by omega)
    rw [← hW4] at c4
    obtain ⟨a5, c5⟩ := step W4 (by omega)
    rw [← hW5] at c5
    have r6 := create_scan_reject data user_id now W5 (by omega)
    simp only [submitCodes_succ, ← hW1, ← hW2, ← hW3, ← hW4, ← hW5, a1, a2, a3, a4, a5, r6]
    rfl

/-- C1 witness: six submissions by owner 7 against an empty store give
[201, 201, 201, 201, 201, 429]. -/
theorem claim_C1_witness :
    submitCodes { target_url := "https://example.com" } 7 0 6 {} =
      [201, 201, 201, 201, 201, 429] :=
  (claim_C1 { target_url := "https://example.com" } 7 0 {}).2.2.2 (by decide)

theorem get_scan_none_of_no_owner_match (scan_id user_id : Nat) (db : Db)
    (h : ∀ sc ∈ db.scans, ¬(sc.id = scan_id ∧ sc.user_id = user_id)) :
    get_scan_by_id_crud scan_id user_id db = none := by
  unfold get_scan_by_id_crud
  rw [List.find?_eq_none]
  intro sc hsc
  have := h sc hsc
  simp only [Bool.and_eq_true, decide_eq_true_eq]
  tauto

/-- C10: every read is owner-scoped: `get_scan_by_id_crud` only ever returns
a scan whose owner is the requesting user, and when no scan matches both id
and owner — the id does not exist, or the scan belongs to someone else — the
lookup is `none` and the delete and cancel endpoints answer with the very
same 404 response and change nothing, so another owner's scan is
indistinguishable from a nonexistent one. -/
theorem claim_C10 :
    ∀ (scan_id user_id : Nat) (w : World),
      (∀ sc : Scan, get_scan_by_id_crud scan_id user_id w.db = some sc →
        sc.id = scan_id ∧ sc.user_id = user_id) ∧
      ((∀ sc ∈ w.db.scans, ¬(sc.id = scan_id ∧ sc.user_id = user_id)) →
        get_scan_by_id_crud scan_id user_id w.db = none ∧
        delete_scan_crud scan_id user_id w.db =
          ({ status_code := 404, success := false, message := "Scan not found" }, w.db) ∧
        cancel_scan_crud scan_id user_id w =
          ({ status_code := 404, success := false, message := "Scan not found" }, w)) := by
  intro scan_id user_id w
  constructor
  · intro sc hsc
    have := List.find?_some hsc
    simp only [Bool.and_eq_true, decide_eq_true_eq] at this
    exact this
  · intro h
    have hnone := get_scan_none_of_no_owner_match scan_id user_id w.db h
    refine ⟨hnone, ?_, ?_⟩
    · unfold delete_scan_crud
      rw [hnone]
    · unfold cancel_scan_crud
      rw [hnone]

/-- C10 witness: user 3 looking up scan 1, which exists but is owned by
user 2, gets `none` and the same 404 delete/cancel responses. -/
theorem claim_C10_witness :
    get_scan_by_id_crud 1 3
      { scans := [{ id := 1, user_id := 2, target_url := "https://a.example",
                    scan_type := ScanType.basic }] } = none ∧
    delete_scan_crud 1 3
      { scans := [{ id := 1, user_id := 2, target_url := "https://a.example",
                    scan_type := ScanType.basic }] } =
      ({ status_code := 404, success := false, message := "Scan not found" },
       { scans := [{ id := 1, user_id := 2, target_url := "https://a.example",
                     scan_type := ScanType.basic }] }) := by
  have h := (claim_C10 1 3
    { db := { scans := [{ id := 1, user_id := 2, target_url := "https://a.example",
                          scan_type := ScanType.basic }] } }).2 (by decide)
  exact ⟨h.1, h.2.1⟩

theorem riskLevel_mem_all (r : RiskLevel) :
    r ∈ [RiskLevel.high, RiskLevel.medium, RiskLevel.low, RiskLevel.informational] := by
  cases r <;> simp

theorem find?_assoc_none (l : List (String × RiskLevel)) (s : String)
    (h : ∀ k ∈ l.map Prod.fst, k ≠ s) :
    l.find? (fun p => p.1 == s) = none := by
  induction l with
  | nil => rfl
  | cons a t ih =>
    rw [List.find?_cons_of_neg]
    · exact ih (fun k hk => h k (by simp [hk]))
    · simp [h a.1 (by simp)]

/-- C7: the ingestion risk mapping is total: every alert maps to one of the
four RiskLevel values; the numeric strings "0".."3" and the label strings
map as listed, any unrecognized string maps to INFORMATIONAL, and a missing
risk field defaults to "0" and hence INFORMATIONAL. -/
theorem claim_C7 :
    (∀ a : RawAlert, mapRisk (rawRiskString a) ∈
      [RiskLevel.high, RiskLevel.medium, RiskLevel.low, RiskLevel.informational]) ∧
    (mapRisk "0" = RiskLevel.informational ∧ mapRisk "1" = RiskLevel.low ∧
     mapRisk "2" = RiskLevel.medium ∧ mapRisk "3" = RiskLevel.high ∧
     mapRisk "Informational" = RiskLevel.informational ∧ mapRisk "Low" = RiskLevel.low ∧
     mapRisk "Medium" = RiskLevel.medium ∧ mapRisk "High" = RiskLevel.high) ∧
    (∀ s : String,
      s ∉ ["0", "1", "2", "3", "High", "Medium", "Low", "Informational"] →
      mapRisk s = RiskLevel.informational) ∧
    (∀ a : RawAlert, a.risk = none →
      mapRisk (rawRiskString a) = RiskLevel.informational) := by
  refine ⟨fun a => riskLevel_mem_all _, by decide, ?_, ?_⟩
  · intro s hs
    simp only [List.mem_cons, List.not_mem_nil, or_false, not_or] at hs
    obtain ⟨h0, h1, h2, h3, hH, hM, hL, hI⟩ := hs
    unfold mapRisk
    rw [find?_assoc_none]
    · rfl
    · intro k hk
      simp only [risk_mapping, List.map_cons, List.map_nil] at hk
      fin_cases hk
      · exact Ne.symm h3
      · exact Ne.symm h2
      · exact Ne.symm h1
      · exact Ne.symm h0
      · exact Ne.symm hH
      · exact Ne.symm hM
      · exact Ne.symm hL
      · exact Ne.symm hI
  · intro a ha
    have : rawRiskString a = "0" := by simp [rawRiskString, ha]
    rw [this]
    decide

/-- C7 witness: the unrecognized string "banana" and an alert with no risk
field both map to INFORMATIONAL. -/
theorem claim_C7_witness :
    mapRisk "banana" = RiskLevel.informational ∧
    mapRisk (rawRiskString {}) = RiskLevel.informational :=
  ⟨claim_C7.2.2.1 "banana" (by decide), claim_C7.2.2.2 {} rfl⟩

theorem applyScanUpdate_id (data : ScanUpdate) (now : Nat) (s : Scan) :
    (applyScanUpdate data now s).id = s.id := by
  unfold applyScanUpdate
  cases data.status <;> cases data.progress_percentage <;>
    cases data.current_step <;> cases data.error_message <;> rfl

theorem applyScanUpdate_user (data : ScanUpdate) (now : Nat) (s : Scan) :
    (applyScanUpdate data now s).user_id = s.user_id := by
  unfold applyScanUpdate
  cases data.status <;> cases data.progress_percentage <;>
    cases data.current_step <;> cases data.error_message <;> rfl

theorem applyScanUpdate_status_some (data : ScanUpdate) (now : Nat) (s : Scan)
    (v : ScanStatus) (h : data.status = some v) :
    (applyScanUpdate data now s).status = v := by
  unfold applyScanUpdate
  rw [h]
  cases data.progress_percentage <;> cases data.current_step <;>
    cases data.error_message <;> rfl

theorem applyScanUpdate_progress_some (data : ScanUpdate) (now : Nat) (s : Scan)
    (p : Nat) (h : data.progress_percentage = some p) :
    (applyScanUpdate data now s).progress_percentage = p := by
  unfold applyScanUpdate
  rw [h]
  cases data.status <;> cases data.current_step <;>
    cases data.error_message <;> rfl

theorem find?_map_owner_scoped (scan_id user_id : Nat) (g : Scan → Scan)
    (l : List Scan)
    (hid : ∀ s : Scan, (g s).id = s.id) (huser : ∀ s : Scan, (g s).user_id = s.user_id) :
    (l.map (fun s =>
        if decide (s.id = scan_id) && decide (s.user_id = user_id) then g s else s)).find?
        (fun s => decide (s.id = scan_id) && decide (s.user_id = user_id)) =
      (l.find? (fun s => decide (s.id = scan_id) && decide (s.user_id = user_id))).map g := by
  induction l with
  | nil => rfl
  | cons a t ih =>
    simp only [List.map_cons]
    cases hcond : (decide (a.id = scan_id) && decide (a.user_id = user_id)) with
    | true =>
      have hga : (decide ((g a).id = scan_id) && decide ((g a).user_id = user_id)) = true := by
        rw [hid, huser]; exact hcond
      rw [if_pos rfl]
      simp only [List.find?_cons, hga, hcond, Option.map_some']
    | false =>
      rw [if_neg (by decide : ¬(false = true))]
      simp only [List.find?_cons, hcond]
      exact ih

theorem get_scan_after_update (scan_id user_id : Nat) (data : ScanUpdate) (db : Db)
    (now : Nat) (sc : Scan)
    (h : get_scan_by_id_crud scan_id user_id db = some sc) :
    get_scan_by_id_crud scan_id user_id (update_scan_crud scan_id user_id data db now).2 =
      some (applyScanUpdate data now sc) := by
  unfold update_scan_crud
  rw [h]
  unfold get_scan_by_id_crud at h ⊢
  simp only []
  rw [find?_map_owner_scoped scan_id user_id (applyScanUpdate data now) db.scans
    (applyScanUpdate_id data now) (applyScanUpdate_user data now), h]
  rfl

/-- C2 (amended): terminal statuses are never exited by the worker-side
cancel path — `_cancel_scan_async` on a Completed/Failed/Cancelled scan
returns not_cancellable and changes nothing — but `update_scan_crud` applies
any caller-supplied status unconditionally, so a caller-initiated update can
move a job out of a terminal state. -/
theorem claim_C2 :
    (∀ (scan_id : Nat) (w : World) (now : Nat) (sc : Scan),
      findScan scan_id w.db = some sc →
      sc.status ∈ [ScanStatus.completed, ScanStatus.failed, ScanStatus.cancelled] →
      cancel_scan_async scan_id w now = (CancelOutcome.notCancellable, w)) ∧
    (∀ (scan_id user_id : Nat) (data : ScanUpdate) (db : Db) (now : Nat)
       (v : ScanStatus) (sc : Scan),
      get_scan_by_id_crud scan_id user_id db = some sc →
      data.status = some v →
      ∃ sc2 : Scan,
        get_scan_by_id_crud scan_id user_id (update_scan_crud scan_id user_id data db now).2 =
          some sc2 ∧ sc2.status = v) := by
  constructor
  · intro scan_id w now sc hfind hterm
    have hs : sc.status = ScanStatus.completed ∨ sc.status = ScanStatus.failed ∨
        sc.status = ScanStatus.cancelled := by simpa using hterm
    rcases hs with h | h | h <;> simp [cancel_scan_async, hfind, h]
  · intro scan_id user_id data db now v sc hget hv
    exact ⟨applyScanUpdate data now sc, get_scan_after_update scan_id user_id data db now sc hget,
      applyScanUpdate_status_some data now sc v hv⟩

/-- C2 counterexample: the claim "no operation changes the Status of a
terminal job" is false — `update_scan_crud` moves scan 1, already COMPLETED,
back to PENDING. -/
theorem claim_C2_counterexample :
    scanStatusOf 1
      { scans := [{ id := 1, user_id := 1, target_url := "https://a.example",
                    scan_type := ScanType.basic, status := ScanStatus.completed }] } =
      some ScanStatus.completed ∧
    scanStatusOf 1
      (update_scan_crud 1 1 { status := some ScanStatus.pending }
        { scans := [{ id := 1, user_id := 1, target_url := "https://a.example",
                      scan_type := ScanType.basic, status := ScanStatus.completed }] } 7).2 =
      some ScanStatus.pending := by
  constructor <;> rfl

/-- C2 witness: the amended claim at a concrete input — cancelling the
completed scan 1 returns not_cancellable and leaves the world unchanged, and
an update requesting status PENDING on it yields a scan with status PENDING. -/
theorem claim_C2_witness :
    cancel_scan_async 1
      { db := { scans := [{ id := 1, user_id := 1, target_url := "https://a.example",
                            scan_type := ScanType.basic, status := ScanStatus.completed }] } } 7 =
      (CancelOutcome.notCancellable,
       { db := { scans := [{ id := 1, user_id := 1, target_url := "https://a.example",
                             scan_type := ScanType.basic, status := ScanStatus.completed }] } }) ∧
    (∃ sc2 : Scan,
      get_scan_by_id_crud 1 1
        (update_scan_crud 1 1 { status := some ScanStatus.pending }
          { scans := [{ id := 1, user_id := 1, target_url := "https://a.example",
                        scan_type := ScanType.basic, status := ScanStatus.completed }] } 7).2 =
        some sc2 ∧ sc2.status = ScanStatus.pending) := by
  constructor
  · exact claim_C2.1 1
      { db := { scans := [{ id := 1, user_id := 1, target_url := "https://a.example",
                            scan_type := ScanType.basic, status := ScanStatus.completed }] } } 7
      { id := 1, user_id := 1, target_url := "https://a.example",
        scan_type := ScanType.basic, status := ScanStatus.completed }
      (by decide) (by decide)
  · exact claim_C2.2 1 1 { status := some ScanStatus.pending }
      { scans := [{ id := 1, user_id := 1, target_url := "https://a.example",
                    scan_type := ScanType.basic, status := ScanStatus.completed }] } 7
      ScanStatus.pending
      { id := 1, user_id := 1, target_url := "https://a.example",
        scan_type := ScanType.basic, status := ScanStatus.completed }
      (by decide) rfl

theorem find?_set_list (scan_id : Nat) (f : Scan → Scan) (l : List Scan)
    (hid : ∀ s : Scan, s.id = scan_id → (f s).id = s.id) :
    (l.map (fun s => if s.id = scan_id then f s else s)).find?
        (fun s => decide (s.id = scan_id)) =
      (l.find? (fun s => decide (s.id = scan_id))).map f := by
  induction l with
  | nil => rfl
  | cons a t ih =>
    simp only [List.map_cons]
    by_cases ha : a.id = scan_id
    · rw [if_pos ha]
      have hfa : decide ((f a).id = scan_id) = true := by simp [hid a ha, ha]
      have hpa : decide (a.id = scan_id) = true := by simp [ha]
      simp only [List.find?_cons, hfa, hpa, Option.map_some']
    · rw [if_neg ha]
      have hpa : decide (a.id = scan_id) = false := by simp [ha]
      simp only [List.find?_cons, hpa]
      exact ih

theorem findScan_setScan (scan_id : Nat) (f : Scan → Scan) (db : Db)
    (hid : ∀ s : Scan, s.id = scan_id → (f s).id = s.id) :
    findScan scan_id (setScan scan_id f db) = (findScan scan_id db).map f := by
  unfold findScan setScan
  exact find?_set_list scan_id f db.scans hid

theorem setScan_alerts (scan_id : Nat) (f : Scan → Scan) (db : Db) :
    (setScan scan_id f db).scan_alerts = db.scan_alerts := rfl

/-- C3 (amended): on an existing job, `_cancel_scan_async` returns
not_cancellable, changing nothing, exactly when the status is neither
PENDING nor IN_PROGRESS; an accepted cancel ends with status CANCELLED and
ErrorMessage "Scan cancelled by user" (the source string — not the
"cancelled by caller" the claim states), and creates no ScanAlert rows. -/
theorem claim_C3 :
    ∀ (scan_id : Nat) (w : World) (now : Nat) (sc : Scan),
      findScan scan_id w.db = some sc →
      ((cancel_scan_async scan_id w now).1 = CancelOutcome.notCancellable ↔
        sc.status ∉ [ScanStatus.pending, ScanStatus.in_progress]) ∧
      (sc.status ∉ [ScanStatus.pending, ScanStatus.in_progress] →
        cancel_scan_async scan_id w now = (CancelOutcome.notCancellable, w)) ∧
      (sc.status ∈ [ScanStatus.pending, ScanStatus.in_progress] →
        (cancel_scan_async scan_id w now).1 = CancelOutcome.cancelledOk ∧
        scanStatusOf scan_id (cancel_scan_async scan_id w now).2.db =
          some ScanStatus.cancelled ∧
        scanErrorOf scan_id (cancel_scan_async scan_id w now).2.db =
          some (some "Scan cancelled by user") ∧
        (cancel_scan_async scan_id w now).2.db.scan_alerts = w.db.scan_alerts) := by
  intro scan_id w now sc hfind
  have hreject : sc.status ∉ [ScanStatus.pending, ScanStatus.in_progress] →
      cancel_scan_async scan_id w now = (CancelOutcome.notCancellable, w) := by
    intro hns
    have h3 : sc.status = ScanStatus.completed ∨ sc.status = ScanStatus.failed ∨
        sc.status = ScanStatus.cancelled := by
      cases hst : sc.status <;> simp_all
    rcases h3 with h | h | h <;> simp [cancel_scan_async, hfind, h]
  have haccept : sc.status ∈ [ScanStatus.pending, ScanStatus.in_progress] →
      (cancel_scan_async scan_id w now).1 = CancelOutcome.cancelledOk ∧
      (cancel_scan_async scan_id w now).2.db = setScan scan_id (cancelStamp now) w.db := by
    intro hin
    have hs : sc.status = ScanStatus.pending ∨ sc.status = ScanStatus.in_progress := by
      simpa using hin
    rcases hs with h | h <;> cases htid : sc.celery_task_id <;>
      simp [cancel_scan_async, hfind, h, htid]
  refine ⟨⟨?_, fun hns => by rw [hreject hns]⟩, hreject, fun hin => ?_⟩
  · intro h1
    by_contra hin
    have hc := (haccept hin).1
    rw [h1] at hc
    cases hc
  · obtain ⟨h1, h2⟩ := haccept hin
    refine ⟨h1, ?_, ?_, ?_⟩
    · rw [h2]
      unfold scanStatusOf
      rw [findScan_setScan scan_id (cancelStamp now) w.db (fun s _ => rfl), hfind]
      rfl
    · rw [h2]
      unfold scanErrorOf
      rw [findScan_setScan scan_id (cancelStamp now) w.db (fun s _ => rfl), hfind]
      rfl
    · rw [h2]
      exact setScan_alerts scan_id (cancelStamp now) w.db

/-- C3 counterexample: cancelling the pending scan 1 is accepted, but the
stored ErrorMessage is "Scan cancelled by user", not the "cancelled by
caller" the claim states. -/
theorem claim_C3_counterexample :
    (cancel_scan_async 1
      { db := { scans := [{ id := 1, user_id := 1, target_url := "https://a.example",
                            scan_type := ScanType.basic, status := ScanStatus.pending }] } } 3).1 =
      CancelOutcome.cancelledOk ∧
    scanErrorOf 1 (cancel_scan_async 1
      { db := { scans := [{ id := 1, user_id := 1, target_url := "https://a.example",
                            scan_type := ScanType.basic, status := ScanStatus.pending }] } } 3).2.db =
      some (some "Scan cancelled by user") ∧
    "Scan cancelled by user" ≠ "cancelled by caller" := by
  refine ⟨rfl, rfl, ?_⟩
  decide

/-- C3 witness: the amended claim applied to the same concrete pending scan:
the cancel is accepted, the final status is CANCELLED, the message is
"Scan cancelled by user", and no alert rows are created. -/
theorem claim_C3_witness :
    (cancel_scan_async 1
      { db := { scans := [{ id := 1, user_id := 1, target_url := "https://b.example",
                            scan_type := ScanType.full, status := ScanStatus.in_progress }] } } 4).1 =
      CancelOutcome.cancelledOk ∧
    scanStatusOf 1 (cancel_scan_async 1
      { db := { scans := [{ id := 1, user_id := 1, target_url := "https://b.example",
                            scan_type := ScanType.full, status := ScanStatus.in_progress }] } } 4).2.db =
      some ScanStatus.cancelled ∧
    (cancel_scan_async 1
      { db := { scans := [{ id := 1, user_id := 1, target_url := "https://b.example",
                            scan_type := ScanType.full, status := ScanStatus.in_progress }] } } 4).2.db.scan_alerts =
      [] := by
  have h := (claim_C3 1
    { db := { scans := [{ id := 1, user_id := 1, target_url := "https://b.example",
                          scan_type := ScanType.full, status := ScanStatus.in_progress }] } } 4
    { id := 1, user_id := 1, target_url := "https://b.example",
      scan_type := ScanType.full, status := ScanStatus.in_progress }
    (by decide)).2.2 (by decide)
  exact ⟨h.1, h.2.1, h.2.2.2⟩

/-- C4 (amended): the worker's progress reports are not persisted at all —
the `update_progress` callback only logs and leaves the store unchanged —
and the caller-facing update operation writes exactly the requested
percentage with no monotonicity coercion, so a lower report lowers the
persisted figure (see the counterexample). -/
theorem claim_C4 :
    (∀ (scan_id percentage : Nat) (step : String) (w : World),
      update_progress scan_id percentage step w = w) ∧
    (∀ (scan_id user_id : Nat) (data : ScanUpdate) (db : Db) (now : Nat)
       (p : Nat) (sc : Scan),
      get_scan_by_id_crud scan_id user_id db = some sc →
      data.progress_percentage = some p →
      ∃ sc2 : Scan,
        get_scan_by_id_crud scan_id user_id
            (update_scan_crud scan_id user_id data db now).2 = some sc2 ∧
        sc2.progress_percentage = p) := by
  constructor
  · intro _ _ _ _
    rfl
  · intro scan_id user_id data db now p sc hget hp
    exact ⟨applyScanUpdate data now sc,
      get_scan_after_update scan_id user_id data db now sc hget,
      applyScanUpdate_progress_some data now sc p hp⟩

/-- C4 counterexample: scan 1 has persisted progress 50; an update reporting
10 stores 10 — the persisted figure is lowered, with no coercion up to the
stored value. -/
theorem claim_C4_counterexample :
    scanProgressOf 1
      { scans := [{ id := 1, user_id := 1, target_url := "https://a.example",
                    scan_type := ScanType.basic, status := ScanStatus.in_progress,
                    progress_percentage := 50 }] } = some 50 ∧
    scanProgressOf 1
      (update_scan_crud 1 1 { progress_percentage := some 10 }
        { scans := [{ id := 1, user_id := 1, target_url := "https://a.example",
                      scan_type := ScanType.basic, status := ScanStatus.in_progress,
                      progress_percentage := 50 }] } 9).2 = some 10 ∧
    (10 : Nat) < 50 := by
  refine ⟨rfl, rfl, by decide⟩

/-- C4 witness: the amended claim at a concrete input — the logging callback
leaves the world unchanged, and an update requesting 10 stores exactly 10. -/
theorem claim_C4_witness :
    update_progress 1 42 "Spidering"
      { db := { scans := [{ id := 1, user_id := 1, target_url := "https://a.example",
                            scan_type := ScanType.basic }] } } =
      { db := { scans := [{ id := 1, user_id := 1, target_url := "https://a.example",
                            scan_type := ScanType.basic }] } } ∧
    (∃ sc2 : Scan,
      get_scan_by_id_crud 1 1
          (update_scan_crud 1 1 { progress_percentage := some 10 }
            { scans := [{ id := 1, user_id := 1, target_url := "https://a.example",
                          scan_type := ScanType.basic, status := ScanStatus.in_progress,
                          progress_percentage := 50 }] } 9).2 = some sc2 ∧
      sc2.progress_percentage = 10) := by
  constructor
  · exact claim_C4.1 1 42 "Spidering"
      { db := { scans := [{ id := 1, user_id := 1, target_url := "https://a.example",
                            scan_type := ScanType.basic }] } }
  · exact claim_C4.2 1 1 { progress_percentage := some 10 }
      { scans := [{ id := 1, user_id := 1, target_url := "https://a.example",
                    scan_type := ScanType.basic, status := ScanStatus.in_progress,
                    progress_percentage := 50 }] } 9 10
      { id := 1, user_id := 1, target_url := "https://a.example",
        scan_type := ScanType.basic, status := ScanStatus.in_progress,
        progress_percentage := 50 }
      (by decide) rfl

theorem run_scan_error_commits (scan_id task_id : Nat) (e : String) (w : World)
    (now : Nat) (sc : Scan) (hfind : findScan scan_id w.db = some sc) :
    run_scan_commits scan_id task_id (Except.error e) w now =
      (RunOutcome.failedRun e,
       [{ w with db := setScan scan_id (startStamp task_id now) w.db },
        { w with db := (setScan scan_id (failedStamp e now)
            (setScan scan_id (startStamp task_id now) w.db)) }]) := by
  have hv : sc.scan_type = ScanType.basic ∨ sc.scan_type = ScanType.full := by
    cases sc.scan_type <;> simp
  rcases hv with h | h <;> simp [run_scan_commits, hfind, h]

/-- C6 (amended): an exception raised during the worker's protected scan
execution (engine failure, ingestion failure — anything the except-branch
catches) transitions the job to FAILED with ErrorMessage set; but a failure
that reaches only the Celery-level `ScanTask.on_failure` handler performs no
database update at all, so such a job keeps its current status — the source
comment itself says it "will remain in IN_PROGRESS state". -/
theorem claim_C6 :
    (∀ (scan_id task_id : Nat) (e : String) (w : World) (now : Nat) (sc : Scan),
      findScan scan_id w.db = some sc →
      (run_scan_async scan_id task_id (Except.error e) w now).1 = RunOutcome.failedRun e ∧
      scanStatusOf scan_id (run_scan_async scan_id task_id (Except.error e) w now).2.db =
        some ScanStatus.failed ∧
      scanErrorOf scan_id (run_scan_async scan_id task_id (Except.error e) w now).2.db =
        some (some e)) ∧
    (∀ w : World, scan_task_on_failure w = w) := by
  constructor
  · intro scan_id task_id e w now sc hfind
    have h1 : run_scan_async scan_id task_id (Except.error e) w now =
        (RunOutcome.failedRun e,
         { w with db := (setScan scan_id (failedStamp e now)
             (setScan scan_id (startStamp task_id now) w.db)) }) := by
      unfold run_scan_async
      rw [run_scan_error_commits scan_id task_id e w now sc hfind]
      rfl
    rw [h1]
    have hf1 := findScan_setScan scan_id (startStamp task_id now) w.db (fun s _ => rfl)
    have hf2 := findScan_setScan scan_id (failedStamp e now)
      (setScan scan_id (startStamp task_id now) w.db) (fun s _ => rfl)
    refine ⟨rfl, ?_, ?_⟩
    · unfold scanStatusOf
      rw [hf2, hf1, hfind]
      rfl
    · unfold scanErrorOf
      rw [hf2, hf1, hfind]
      rfl
  · intro w
    rfl

/-- C6 counterexample: a failure handled only by `ScanTask.on_failure` — the
handler for any task-level failure, including a failed FAILED-transition
write — leaves scan 1 IN_PROGRESS: the handler changes nothing, so the job
is left stuck in a non-terminal state, contradicting the claim that every
failure path ends in FAILED. -/
theorem claim_C6_counterexample :
    scan_task_on_failure
      { db := { scans := [{ id := 1, user_id := 1, target_url := "https://a.example",
                            scan_type := ScanType.basic, status := ScanStatus.in_progress }] } } =
      { db := { scans := [{ id := 1, user_id := 1, target_url := "https://a.example",
                            scan_type := ScanType.basic, status := ScanStatus.in_progress }] } } ∧
    scanStatusOf 1
      { scans := [{ id := 1, user_id := 1, target_url := "https://a.example",
                    scan_type := ScanType.basic, status := ScanStatus.in_progress }] } =
      some ScanStatus.in_progress ∧
    ScanStatus.in_progress ≠ ScanStatus.failed := by
  refine ⟨rfl, rfl, by decide⟩

/-- C6 witness: the amended claim at a concrete input — an engine exception
"zap unreachable" on the pending scan 1 ends with status FAILED and that
message stored. -/
theorem claim_C6_witness :
    (run_scan_async 1 9 (Except.error "zap unreachable")
      { db := { scans := [{ id := 1, user_id := 1, target_url := "https://a.example",
                            scan_type := ScanType.basic }] } } 2).1 =
      RunOutcome.failedRun "zap unreachable" ∧
    scanStatusOf 1 (run_scan_async 1 9 (Except.error "zap unreachable")
      { db := { scans := [{ id := 1, user_id := 1, target_url := "https://a.example",
                            scan_type := ScanType.basic }] } } 2).2.db =
      some ScanStatus.failed := by
  have h := claim_C6.1 1 9 "zap unreachable"
    { db := { scans := [{ id := 1, user_id := 1, target_url := "https://a.example",
                          scan_type := ScanType.basic }] } } 2
    { id := 1, user_id := 1, target_url := "https://a.example",
      scan_type := ScanType.basic }
    (by decide)
  exact ⟨h.1, h.2.1⟩

theorem processAlertsLoop_length (sid : Nat) (l : List RawAlert) :
    (processAlertsLoop sid l).1.length = l.length := by
  induction l with
  | nil => rfl
  | cons a t ih => simp [processAlertsLoop, ih]

theorem processAlertsLoop_scan_id (sid : Nat) (l : List RawAlert) :
    ∀ r ∈ (processAlertsLoop sid l).1, r.scan_id = sid := by
  induction l with
  | nil =>
    intro r hr
    cases hr
  | cons a t ih =>
    intro r hr
    simp only [processAlertsLoop] at hr
    rcases List.mem_cons.mp hr with rfl | hr2
    · rfl
    · exact ih r hr2

theorem processAlertsLoop_counts (sid : Nat) (l : List RawAlert) :
    (processAlertsLoop sid l).2.high + (processAlertsLoop sid l).2.medium +
      (processAlertsLoop sid l).2.low + (processAlertsLoop sid l).2.informational
      = l.length := by
  induction l with
  | nil => rfl
  | cons a t ih =>
    simp only [processAlertsLoop]
    cases h : mapRisk (rawRiskString a) <;> simp [bumpRisk, h] <;> omega

theorem findScan_some_id (scan_id : Nat) (db : Db) (sc : Scan)
    (h : findScan scan_id db = some sc) : sc.id = scan_id := by
  unfold findScan at h
  have := List.find?_some h
  simpa using this

/-- C5: on a successful engine run with K raw findings, the worker persists
exactly K ScanAlert rows in one bulk write (the second commit appends them
as a single block), sets the aggregate counters in that same commit so that
high+medium+low+informational = K and total_alerts = K, and only after that
commit does the status become COMPLETED: the commit sequence is
IN_PROGRESS, (rows + counters, still IN_PROGRESS), COMPLETED. -/
theorem claim_C5 :
    ∀ (scan_id task_id : Nat) (alerts : List RawAlert) (w : World) (now : Nat) (sc : Scan),
      findScan scan_id w.db = some sc →
      ∃ (w1 w2 w3 : World) (rows : List ScanAlert),
        run_scan_commits scan_id task_id (Except.ok alerts) w now =
          (RunOutcome.completedRun, [w1, w2, w3]) ∧
        w1.db.scan_alerts = w.db.scan_alerts ∧
        w2.db.scan_alerts = w.db.scan_alerts ++ rows ∧
        rows.length = alerts.length ∧
        (∀ r ∈ rows, r.scan_id = scan_id) ∧
        (∃ scn : Scan, findScan scan_id w2.db = some scn ∧
          scn.status = ScanStatus.in_progress ∧
          scn.total_alerts = alerts.length ∧
          scn.high_risk_count + scn.medium_risk_count + scn.low_risk_count + scn.info_count
            = alerts.length) ∧
        scanStatusOf scan_id w1.db = some ScanStatus.in_progress ∧
        scanStatusOf scan_id w3.db = some ScanStatus.completed ∧
        w3.db.scan_alerts = w2.db.scan_alerts := by
  intro scan_id task_id alerts w now sc hfind
  have hscid : sc.id = scan_id := findScan_some_id scan_id w.db sc hfind
  have hv : sc.scan_type = ScanType.basic ∨ sc.scan_type = ScanType.full := by
    cases sc.scan_type <;> simp
  have hrun : run_scan_commits scan_id task_id (Except.ok alerts) w now =
      (RunOutcome.completedRun,
       [{ w with db := setScan scan_id (startStamp task_id now) w.db },
        { w with db :=
          { scans := (setScan scan_id
              (fun _ => (process_alerts (startStamp task_id now sc) alerts).2)
              (setScan scan_id (startStamp task_id now) w.db)).scans,
            scan_alerts := (setScan scan_id (startStamp task_id now) w.db).scan_alerts ++
              (process_alerts (startStamp task_id now sc) alerts).1 } },
        { w with db := (setScan scan_id (completedStamp now)
            { scans := (setScan scan_id
                (fun _ => (process_alerts (startStamp task_id now sc) alerts).2)
                (setScan scan_id (startStamp task_id now) w.db)).scans,
              scan_alerts := (setScan scan_id (startStamp task_id now) w.db).scan_alerts ++
                (process_alerts (startStamp task_id now sc) alerts).1 }) }]) := by
    rcases hv with h | h <;> simp [run_scan_commits, hfind, h]
  have hfd1 : findScan scan_id (setScan scan_id (startStamp task_id now) w.db) =
      some (startStamp task_id now sc) := by
    rw [findScan_setScan scan_id (startStamp task_id now) w.db (fun s _ => rfl), hfind]
    rfl
  refine ⟨_, _, _, (process_alerts (startStamp task_id now sc) alerts).1, hrun,
    rfl, rfl, ?_, ?_, ?_, ?_, ?_, rfl⟩
  · exact processAlertsLoop_length (startStamp task_id now sc).id alerts
  · intro r hr
    have := processAlertsLoop_scan_id (startStamp task_id now sc).id alerts r hr
    rw [this]
    exact hscid
  · refine ⟨(process_alerts (startStamp task_id now sc) alerts).2, ?_, rfl, rfl, ?_⟩
    · show findScan scan_id (setScan scan_id
        (fun _ => (process_alerts (startStamp task_id now sc) alerts).2)
        (setScan scan_id (startStamp task_id now) w.db)) = _
      rw [findScan_setScan scan_id _ _ (fun s hs => by rw [show
        ((process_alerts (startStamp task_id now sc) alerts).2).id = sc.id from rfl,
        hscid, hs]), hfd1]
      rfl
    · exact processAlertsLoop_counts (startStamp task_id now sc).id alerts
  · unfold scanStatusOf
    rw [hfd1]
    rfl
  · unfold scanStatusOf
    show ((findScan scan_id (setScan scan_id (completedStamp now)
      { scans := (setScan scan_id
          (fun _ => (process_alerts (startStamp task_id now sc) alerts).2)
          (setScan scan_id (startStamp task_id now) w.db)).scans,
        scan_alerts := (setScan scan_id (startStamp task_id now) w.db).scan_alerts ++
          (process_alerts (startStamp task_id now sc) alerts).1 })).map
        (fun s => s.status)) = _
    rw [findScan_setScan scan_id (completedStamp now) _ (fun s _ => rfl)]
    have hmid : findScan scan_id
        { scans := (setScan scan_id
            (fun _ => (process_alerts (startStamp task_id now sc) alerts).2)
            (setScan scan_id (startStamp task_id now) w.db)).scans,
          scan_alerts := (setScan scan_id (startStamp task_id now) w.db).scan_alerts ++
            (process_alerts (startStamp task_id now sc) alerts).1 } =
        some (process_alerts (startStamp task_id now sc) alerts).2 := by
      show findScan scan_id (setScan scan_id
        (fun _ => (process_alerts (startStamp task_id now sc) alerts).2)
        (setScan scan_id (startStamp task_id now) w.db)) = _
      rw [findScan_setScan scan_id _ _ (fun s hs => by rw [show
        ((process_alerts (startStamp task_id now sc) alerts).2).id = sc.id from rfl,
        hscid, hs]), hfd1]
      rfl
    rw [hmid]
    rfl

/-- C5 witness: ingesting two raw findings (risks "3" and missing) for the
pending scan 1 yields exactly 2 rows in the bulk commit, counters summing to
2, and the COMPLETED transition only in the third commit. -/
theorem claim_C5_witness :
    ∃ (w1 w2 w3 : World) (rows : List ScanAlert),
      run_scan_commits 1 9 (Except.ok [{ risk := some "3" }, {}])
        { db := { scans := [{ id := 1, user_id := 1, target_url := "https://a.example",
                              scan_type := ScanType.basic }] } } 2 =
        (RunOutcome.completedRun, [w1, w2, w3]) ∧
      w2.db.scan_alerts =
        ({ db := { scans := [{ id := 1, user_id := 1, target_url := "https://a.example",
                               scan_type := ScanType.basic }] } } : World).db.scan_alerts ++ rows ∧
      rows.length = 2 ∧
      scanStatusOf 1 w3.db = some ScanStatus.completed := by
  obtain ⟨w1, w2, w3, rows, h1, _, h3, h4, _, _, _, h8, _⟩ :=
    claim_C5 1 9 [{ risk := some "3" }, {}]
      { db := { scans := [{ id := 1, user_id := 1, target_url := "https://a.example",
                            scan_type := ScanType.basic }] } } 2
      { id := 1, user_id := 1, target_url := "https://a.example",
        scan_type := ScanType.basic }
      (by decide)
  exact ⟨w1, w2, w3, rows, h1, h3, h4, h8⟩

theorem basicTick_exit (spider_timeout passive_timeout : Nat) (eng : BasicEngine)
    (st : BasicLoopState) (h : max spider_timeout passive_timeout < 2 * st.tick) :
    (basicTick spider_timeout passive_timeout eng st).isLeft := by
  have hs : spider_timeout < 2 * st.tick := lt_of_le_of_lt (le_max_left _ _) h
  have hp : passive_timeout < 2 * st.tick := lt_of_le_of_lt (le_max_right _ _) h
  have hexit : basicExit spider_timeout passive_timeout eng st = true := by
    by_cases hr : eng.records st.tick = 0 <;>
      simp [basicExit, basicSpiderDone, hs, hp, hr]
  simp [basicTick, hexit]

theorem basicTick_continue (spider_timeout passive_timeout : Nat) (eng : BasicEngine)
    (st st' : BasicLoopState)
    (h : basicTick spider_timeout passive_timeout eng st = Sum.inr st') :
    st'.tick = st.tick + 1 := by
  unfold basicTick at h
  cases hbe : basicExit spider_timeout passive_timeout eng st with
  | true =>
    rw [hbe] at h
    simp at h
  | false =>
    rw [hbe] at h
    rw [if_neg (by simp)] at h
    injection h with h2
    subst h2
    rfl

theorem basicLoop_isSome (spider_timeout passive_timeout : Nat) (eng : BasicEngine) :
    ∀ (fuel : Nat) (st : BasicLoopState),
      max spider_timeout passive_timeout + 2 - 2 * st.tick < 2 * fuel →
      (basicLoop spider_timeout passive_timeout eng fuel st).isSome := by
  intro fuel
  induction fuel with
  | zero =>
    intro st h
    omega
  | succ n ih =>
    intro st h
    cases htick : basicTick spider_timeout passive_timeout eng st with
    | inl done => simp [basicLoop, htick]
    | inr next =>
      have hnot : ¬ (max spider_timeout passive_timeout < 2 * st.tick) := by
        intro hlt
        have hx := basicTick_exit spider_timeout passive_timeout eng st hlt
        rw [htick] at hx
        simp at hx
      have hn := basicTick_continue spider_timeout passive_timeout eng st next htick
      have h2 : max spider_timeout passive_timeout + 2 - 2 * next.tick < 2 * n := by
        rw [hn]
        omega
      simp only [basicLoop, htick]
      exact ih next h2

theorem fullTick_exit (spider_timeout ajax_timeout : Nat) (ajax_enabled : Bool)
    (eng : FullEngine) (st : FullLoopState)
    (h : full_active_timeout < 3 * st.tick) :
    (fullTick spider_timeout ajax_timeout ajax_enabled eng st).isLeft := by
  have hexit : fullExit spider_timeout ajax_timeout ajax_enabled eng st = true := by
    simp [fullExit, h]
  simp [fullTick, hexit]

theorem fullTick_continue (spider_timeout ajax_timeout : Nat) (ajax_enabled : Bool)
    (eng : FullEngine) (st st' : FullLoopState)
    (h : fullTick spider_timeout ajax_timeout ajax_enabled eng st = Sum.inr st') :
    st'.tick = st.tick + 1 := by
  unfold fullTick at h
  cases hbe : fullExit spider_timeout ajax_timeout ajax_enabled eng st with
  | true =>
    rw [hbe] at h
    simp at h
  | false =>
    rw [hbe] at h
    rw [if_neg (by simp)] at h
    injection h with h2
    subst h2
    rfl

theorem fullLoop_isSome (spider_timeout ajax_timeout : Nat) (ajax_enabled : Bool)
    (eng : FullEngine) :
    ∀ (fuel : Nat) (st : FullLoopState),
      full_active_timeout + 3 - 3 * st.tick < 3 * fuel →
      (fullLoop spider_timeout ajax_timeout ajax_enabled eng fuel st).isSome := by
  intro fuel
  induction fuel with
  | zero =>
    intro st h
    omega
  | succ n ih =>
    intro st h
    cases htick : fullTick spider_timeout ajax_timeout ajax_enabled eng st with
    | inl done => simp [fullLoop, htick]
    | inr next =>
      have hnot : ¬ (full_active_timeout < 3 * st.tick) := by
        intro hlt
        have hx := fullTick_exit spider_timeout ajax_timeout ajax_enabled eng st hlt
        rw [htick] at hx
        simp at hx
      have hn := fullTick_continue spider_timeout ajax_timeout ajax_enabled eng st next htick
      have h2 : full_active_timeout + 3 - 3 * next.tick < 3 * n := by
        rw [hn]
        omega
      simp only [fullLoop, htick]
      exact ih next h2

theorem run_scan_ok_final (scan_id task_id : Nat) (alerts : List RawAlert) (w : World)
    (now : Nat) (sc : Scan) (hfind : findScan scan_id w.db = some sc) :
    (run_scan_async scan_id task_id (Except.ok alerts) w now).1 = RunOutcome.completedRun ∧
    scanStatusOf scan_id (run_scan_async scan_id task_id (Except.ok alerts) w now).2.db =
      some ScanStatus.completed := by
  have hscid : sc.id = scan_id := findScan_some_id scan_id w.db sc hfind
  have hv : sc.scan_type = ScanType.basic ∨ sc.scan_type = ScanType.full := by
    cases sc.scan_type <;> simp
  have hrun : run_scan_async scan_id task_id (Except.ok alerts) w now =
      (RunOutcome.completedRun,
       { w with db := (setScan scan_id (completedStamp now)
            { scans := (setScan scan_id
                (fun _ => (process_alerts (startStamp task_id now sc) alerts).2)
                (setScan scan_id (startStamp task_id now) w.db)).scans,
              scan_alerts := (setScan scan_id (startStamp task_id now) w.db).scan_alerts ++
                (process_alerts (startStamp task_id now sc) alerts).1 }) }) := by
    unfold run_scan_async
    rcases hv with h | h <;> simp [run_scan_commits, hfind, h]
  rw [hrun]
  refine ⟨rfl, ?_⟩
  have hfd1 : findScan scan_id (setScan scan_id (startStamp task_id now) w.db) =
      some (startStamp task_id now sc) := by
    rw [findScan_setScan scan_id (startStamp task_id now) w.db (fun s _ => rfl), hfind]
    rfl
  have hmid : findScan scan_id
      { scans := (setScan scan_id
          (fun _ => (process_alerts (startStamp task_id now sc) alerts).2)
          (setScan scan_id (startStamp task_id now) w.db)).scans,
        scan_alerts := (setScan scan_id (startStamp task_id now) w.db).scan_alerts ++
          (process_alerts (startStamp task_id now sc) alerts).1 } =
      some (process_alerts (startStamp task_id now sc) alerts).2 := by
    show findScan scan_id (setScan scan_id
      (fun _ => (process_alerts (startStamp task_id now sc) alerts).2)
      (setScan scan_id (startStamp task_id now) w.db)) = _
    rw [findScan_setScan scan_id _ _ (fun s hs => by rw [show
      ((process_alerts (startStamp task_id now sc) alerts).2).id = sc.id from rfl,
      hscid, hs]), hfd1]
    rfl
  unfold scanStatusOf
  rw [findScan_setScan scan_id (completedStamp now) _ (fun s _ => rfl), hmid]
  rfl

/-- C8: a phase timeout alone never fails a job.  For every engine sample
stream — including streams whose phases never finish, only ever timing out —
the basic and the full polling loops exit (within (max timeout)/2 + 1 resp.
1800/3 + 1 ticks) and return the alerts the engine has accumulated; and a
worker run whose engine call returns an alert list always ends with the job
COMPLETED, never FAILED. -/
theorem claim_C8 :
    (∀ (spider_timeout passive_timeout : Nat) (eng : BasicEngine) (fuel : Nat),
      max spider_timeout passive_timeout + 2 < 2 * fuel →
      ∃ reports, run_basic_scan spider_timeout passive_timeout eng fuel =
        some (eng.alerts, reports)) ∧
    (∀ (spider_timeout ajax_timeout : Nat) (ajax_enabled : Bool) (eng : FullEngine)
       (fuel : Nat),
      full_active_timeout + 3 < 3 * fuel →
      ∃ reports, run_full_scan spider_timeout ajax_timeout ajax_enabled eng fuel =
        some (eng.alerts, reports)) ∧
    (∀ (scan_id task_id : Nat) (alerts : List RawAlert) (w : World) (now : Nat) (sc : Scan),
      findScan scan_id w.db = some sc →
      (run_scan_async scan_id task_id (Except.ok alerts) w now).1 = RunOutcome.completedRun ∧
      scanStatusOf scan_id (run_scan_async scan_id task_id (Except.ok alerts) w now).2.db =
        some ScanStatus.completed) := by
  refine ⟨?_, ?_, ?_⟩
  · intro spider_timeout passive_timeout eng fuel h
    have hsome := basicLoop_isSome spider_timeout passive_timeout eng fuel basicInitState
      (by simpa [basicInitState] using h)
    obtain ⟨st, hst⟩ := Option.isSome_iff_exists.mp hsome
    exact ⟨st.reports ++ [(100, "Collecting results")], by simp [run_basic_scan, hst]⟩
  · intro spider_timeout ajax_timeout ajax_enabled eng fuel h
    have hsome := fullLoop_isSome spider_timeout ajax_timeout ajax_enabled eng fuel
      (fullInitState ajax_enabled) (by simpa [fullInitState] using h)
    obtain ⟨st, hst⟩ := Option.isSome_iff_exists.mp hsome
    exact ⟨st.reports ++ [(100, "Collecting security findings")], by simp [run_full_scan, hst]⟩
  · intro scan_id task_id alerts w now sc hfind
    exact run_scan_ok_final scan_id task_id alerts w now sc hfind

/-- C8 witness: an engine whose spider never progresses and whose passive
backlog never drains — every phase only times out — still yields a some
result from both loops, and a worker run on the returned alerts completes
scan 1. -/
theorem claim_C8_witness :
    (∃ reports, run_basic_scan 4 4
      { spider := fun _ => 0, records := fun _ => 5, alerts := [] } 5 =
      some ([], reports)) ∧
    (∃ reports, run_full_scan 4 4 false
      { spider := fun _ => 0, ajaxStopped := fun _ => false, records := fun _ => 5,
        activeStatus := fun _ => some 0, alerts := [] } 602 =
      some ([], reports)) ∧
    scanStatusOf 1 (run_scan_async 1 9 (Except.ok [])
      { db := { scans := [{ id := 1, user_id := 1, target_url := "https://a.example",
                            scan_type := ScanType.full }] } } 2).2.db =
      some ScanStatus.completed := by
  refine ⟨?_, ?_, ?_⟩
  · exact claim_C8.1 4 4 { spider := fun _ => 0, records := fun _ => 5, alerts := [] } 5
      (by decide)
  · exact claim_C8.2.1 4 4 false
      { spider := fun _ => 0, ajaxStopped := fun _ => false, records := fun _ => 5,
        activeStatus := fun _ => some 0, alerts := [] } 602 (by decide)
  · exact (claim_C8.2.2 1 9 []
      { db := { scans := [{ id := 1, user_id := 1, target_url := "https://a.example",
                            scan_type := ScanType.full }] } } 2
      { id := 1, user_id := 1, target_url := "https://a.example",
        scan_type := ScanType.full }
      (by decide)).2

set_option maxRecDepth 16384 in
/-- C9 (amended): every progress report a continuing poll tick of the basic
scan emits carries exactly `int(spider*0.4 + passive*0.6)` evaluated in
IEEE-754 binary64 arithmetic — the truncation toward zero of the double
value — applied to the tick's sampled spider and derived passive
percentages.  That value is neither round(0.4d + 0.6p), the spec's formula
(at d=2, p=0 the program reports int(0.80000000000000004) = 0 while the
round is 1), nor even the exact floor ⌊(2d+3p)/5⌋ (at d=1, p=6 the exact
value is 4.0 and the floor is 4, but the doubles give
int(3.9999999999999996) = 3). -/
theorem claim_C9 :
    (∀ (spider_timeout passive_timeout : Nat) (eng : BasicEngine) (st st' : BasicLoopState),
      basicTick spider_timeout passive_timeout eng st = Sum.inr st' →
      st'.reports = st.reports ++
        [(basic_combined_progress (eng.spider st.tick)
            (basic_passive_progress (basicNextInit eng st) (eng.records st.tick)),
          basicStatusMsg (eng.spider st.tick)
            (basic_passive_progress (basicNextInit eng st) (eng.records st.tick))
            (eng.records st.tick))]) ∧
    (basic_combined_progress 2 0 = 0 ∧ spec_round_combined 2 0 = 1) ∧
    (basic_combined_progress 1 6 = 3 ∧ (1 * 2 + 6 * 3) / 5 = 4) := by
  refine ⟨?_, ⟨by decide, ?_⟩, by decide, by decide⟩
  · intro spider_timeout passive_timeout eng st st' h
    unfold basicTick at h
    cases hbe : basicExit spider_timeout passive_timeout eng st with
    | true =>
      rw [hbe] at h
      simp at h
    | false =>
      rw [hbe] at h
      rw [if_neg (by simp)] at h
      injection h with h2
      subst h2
      rfl
  · unfold spec_round_combined
    rw [round_eq]
    norm_num

set_option maxRecDepth 16384 in
/-- C9 counterexample: with spider at 2% and a passive backlog of 5 at
every tick, the first poll tick reports combined progress 0 — the exact
run reports are [0, 5, 0, 100] — while the claimed formula
round(0.4×2 + 0.6×0) = round(0.8) gives 1: the source truncates
(int(0.8) = 0), it does not round. -/
theorem claim_C9_counterexample :
    (run_basic_scan 0 0 { spider := fun _ => 2, records := fun _ => 5, alerts := [] } 3).map
        (fun r => r.2.map Prod.fst) = some [0, 5, 0, 100] ∧
    basic_combined_progress 2 0 = 0 ∧
    spec_round_combined 2 0 = 1 := by
  refine ⟨by decide, rfl, ?_⟩
  unfold spec_round_combined
  rw [round_eq]
  norm_num

/-- C9 witness: the double-truncation values at the two separating inputs,
obtained from the theorem. -/
theorem claim_C9_witness :
    basic_combined_progress 2 0 = 0 ∧ basic_combined_progress 1 6 = 3 :=
  ⟨claim_C9.2.1.1, claim_C9.2.2.1⟩

end HackYourOwnWeb
